import Mathlib

/-!
Verification of the error-boundary component of the `portal` repository:
the inline markdown inserter (`insertFormatting`), the error-report
assembler (`downloadErrorReport`), the GitHub issue URL builder
(`createGithubIssue`), and the clipboard copy handler
(`copyToClipboard`).  Strings manipulated character-wise are modelled as
lists of Unicode scalar values (`List Char`); selection offsets and
lengths count characters.
-/

namespace Portal

/-- JavaScript `String.prototype.substring` on a character-list buffer:
both indices are clamped to the buffer length and swapped when out of
order, then the slice between them is returned. -/
def jsSubstring (s : List Char) (a b : Nat) : List Char :=
  let a' := min a s.length
  let b' := min b s.length
  (s.drop (min a' b')).take (max a' b' - min a' b')

/-- The `switch (format)` block of `insertFormatting`: wraps the selected
text in the markdown delimiters of the four recognized styles, and
produces the empty string otherwise (the `formattedText` variable is
initialized to the empty string and the `switch` has no default case). -/
def formattedText (format : String) (selectedText : List Char) : List Char :=
  if format = "bold" then "**".toList ++ selectedText ++ "**".toList
  else if format = "italic" then "*".toList ++ selectedText ++ "*".toList
  else if format = "code" then "`".toList ++ selectedText ++ "`".toList
  else if format = "list" then "- ".toList ++ selectedText
  else []

/-- The pure core of `insertFormatting`: from the textarea buffer and the
current selection offsets, the new buffer is
`userReport.substring(0, start) + formattedText + userReport.substring(end)`
and the cursor position passed to `setSelectionRange` is
`start + formattedText.length`. -/
def insertFormatting (userReport : List Char) (selectionStart selectionEnd : Nat)
    (format : String) : List Char × Nat :=
  let selectedText := jsSubstring userReport selectionStart selectionEnd
  let f := formattedText format selectedText
  let newText :=
    jsSubstring userReport 0 selectionStart ++ f ++
      jsSubstring userReport selectionEnd userReport.length
  (newText, selectionStart + f.length)

theorem jsSubstring_eq_slice (s : List Char) (a b : Nat) (h1 : a ≤ b)
    (h2 : b ≤ s.length) :
    jsSubstring s a b = (s.drop a).take (b - a) := by
  simp only [jsSubstring]
  rw [show min a s.length = a by omega, show min b s.length = b by omega,
    show min a b = a by omega, show max a b = b by omega]

theorem jsSubstring_zero (s : List Char) (a : Nat) (h : a ≤ s.length) :
    jsSubstring s 0 a = s.take a := by
  rw [jsSubstring_eq_slice s 0 a (Nat.zero_le a) h]
  simp

theorem jsSubstring_length_eq_drop (s : List Char) (a : Nat) (h : a ≤ s.length) :
    jsSubstring s a s.length = s.drop a := by
  rw [jsSubstring_eq_slice s a s.length h (Nat.le_refl _), ← List.length_drop,
    List.take_length]

/-- C1: for every buffer, every selection range with
`selectionStart ≤ selectionEnd ≤ length buffer`, and every recognized
style, the new buffer is `prefix ++ transformed ++ suffix` where the
transform wraps the selected substring in the documented delimiters, and
the new cursor position is `selectionStart + length transformed`; in
particular bold on `"hello world"` with selection from 0 to 5 yields
`"**hello** world"` and cursor position 9. -/
theorem insertFormatting_recognized_styles (buf : List Char) (s e : Nat)
    (h1 : s ≤ e) (h2 : e ≤ buf.length) :
    (insertFormatting buf s e "bold" =
      (buf.take s ++ ("**".toList ++ (buf.drop s).take (e - s) ++ "**".toList) ++ buf.drop e,
        s + ("**".toList ++ (buf.drop s).take (e - s) ++ "**".toList).length)) ∧
    (insertFormatting buf s e "italic" =
      (buf.take s ++ ("*".toList ++ (buf.drop s).take (e - s) ++ "*".toList) ++ buf.drop e,
        s + ("*".toList ++ (buf.drop s).take (e - s) ++ "*".toList).length)) ∧
    (insertFormatting buf s e "code" =
      (buf.take s ++ ("`".toList ++ (buf.drop s).take (e - s) ++ "`".toList) ++ buf.drop e,
        s + ("`".toList ++ (buf.drop s).take (e - s) ++ "`".toList).length)) ∧
    (insertFormatting buf s e "list" =
      (buf.take s ++ ("- ".toList ++ (buf.drop s).take (e - s)) ++ buf.drop e,
        s + ("- ".toList ++ (buf.drop s).take (e - s)).length)) ∧
    insertFormatting "hello world".toList 0 5 "bold" = ("**hello** world".toList, 9) := by
  refine ⟨?_, ?_, ?_, ?_, by decide⟩ <;>
    simp [insertFormatting, formattedText,
      jsSubstring_eq_slice buf s e h1 h2, jsSubstring_zero buf s (Nat.le_trans h1 h2),
      jsSubstring_length_eq_drop buf e h2]

/-- C1 witness: the theorem instantiated on the buffer `"hello world"`
with selection from 0 to 5. -/
theorem insertFormatting_recognized_styles_witness :
    (0 ≤ 5 ∧ 5 ≤ ("hello world".toList).length) ∧
      insertFormatting "hello world".toList 0 5 "bold" = ("**hello** world".toList, 9) :=
  ⟨by decide,
    (insertFormatting_recognized_styles "hello world".toList 0 5 (by decide)
      (by decide)).2.2.2.2⟩

/-- C2 counterexample: with the unrecognized style `"strikethrough"` on
buffer `"hello world"` and selection from 0 to 5, the resulting buffer is
`" world"`, not the unchanged buffer the claim describes: the selected
substring is deleted. -/
theorem insertFormatting_unrecognized_claim_false :
    insertFormatting "hello world".toList 0 5 "strikethrough" ≠
      ("hello world".toList, 0) := by
  decide

/-- C2 amended: for an unrecognized style the `switch` leaves
`formattedText` as the empty string, so the new buffer is
`prefix ++ suffix` — the selected substring is removed from the buffer,
which is therefore unchanged only when the selection is empty — and the
resulting cursor position is `selectionStart`. -/
theorem insertFormatting_unrecognized (buf : List Char) (s e : Nat) (fmt : String)
    (hb : fmt ≠ "bold") (hi : fmt ≠ "italic") (hc : fmt ≠ "code") (hl : fmt ≠ "list")
    (h1 : s ≤ e) (h2 : e ≤ buf.length) :
    insertFormatting buf s e fmt = (buf.take s ++ buf.drop e, s) := by
  simp [insertFormatting, formattedText, if_neg hb, if_neg hi, if_neg hc, if_neg hl,
    jsSubstring_zero buf s (Nat.le_trans h1 h2), jsSubstring_length_eq_drop buf e h2]

/-- C2 amended witness: the unrecognized style `"strikethrough"` on
`"hello world"` with selection from 0 to 5 deletes the selection. -/
theorem insertFormatting_unrecognized_witness :
    ("strikethrough" ≠ "bold" ∧ "strikethrough" ≠ "italic" ∧
      "strikethrough" ≠ "code" ∧ "strikethrough" ≠ "list" ∧
      0 ≤ 5 ∧ 5 ≤ ("hello world".toList).length) ∧
    insertFormatting "hello world".toList 0 5 "strikethrough" =
      (("hello world".toList).take 0 ++ ("hello world".toList).drop 5, 0) :=
  ⟨by decide,
    insertFormatting_unrecognized "hello world".toList 0 5 "strikethrough"
      (by decide) (by decide) (by decide) (by decide) (by decide) (by decide)⟩

/-- C10: for every style (recognized or not) and every in-range
selection, the new buffer has the form `prefix ++ inserted ++ suffix`
with `prefix = buf.take selectionStart` and
`suffix = buf.drop selectionEnd`: the unselected portions of the buffer
are never altered or reordered. -/
theorem insertFormatting_frame (buf : List Char) (s e : Nat) (fmt : String)
    (h1 : s ≤ e) (h2 : e ≤ buf.length) :
    ∃ inserted : List Char,
      (insertFormatting buf s e fmt).1 = buf.take s ++ inserted ++ buf.drop e := by
  refine ⟨formattedText fmt (jsSubstring buf s e), ?_⟩
  simp [insertFormatting, jsSubstring_zero buf s (Nat.le_trans h1 h2),
    jsSubstring_length_eq_drop buf e h2]

/-- The error descriptor received by the component: a JavaScript `Error`
value with an optional Next.js `digest`; `stack` is optional on
JavaScript `Error` objects. -/
structure ErrorInfo where
  name : String
  message : String
  stack : Option String
  digest : Option String
deriving DecidableEq, Repr

/-- The structured record assembled by `downloadErrorReport`. -/
structure ErrorReport where
  timestamp : String
  error : ErrorInfo
  userReport : String
  userAgent : String
  url : String
  screenshot : String
deriving DecidableEq, Repr

/-- JavaScript `x || d` on an optional string: `null`/`undefined` and the
empty string are falsy and give the default. -/
def jsOrOpt (x : Option String) (d : String) : String :=
  match x with
  | none => d
  | some s => if s = "" then d else s

/-- JavaScript `s || d` on a string: the empty string is falsy. -/
def jsOrStr (s d : String) : String :=
  if s = "" then d else s

/-- JavaScript template-literal interpolation of a possibly `undefined`
string: `undefined` renders as the text `"undefined"`. -/
def jsTemplate (x : Option String) : String :=
  match x with
  | none => "undefined"
  | some s => s

/-- JavaScript truthiness of an optional string (`null`/`undefined` and
the empty string are falsy). -/
def jsTruthy (x : Option String) : Bool :=
  match x with
  | none => false
  | some s => s != ""

/-- The `report` object literal built inside `downloadErrorReport`:
`digest` and `stack` are passed through unchanged, while the screenshot
slot is `screenshot || 'No screenshot captured'`. -/
def buildReport (error : ErrorInfo) (userReport : String) (screenshot : Option String)
    (timestamp userAgent url : String) : ErrorReport :=
  { timestamp := timestamp
    error :=
      { name := error.name
        message := error.message
        stack := error.stack
        digest := error.digest }
    userReport := userReport
    userAgent := userAgent
    url := url
    screenshot := jsOrOpt screenshot "No screenshot captured" }

/-- JSON documents restricted to the shapes produced here: strings and
objects with ordered fields. -/
inductive Json where
  | str : String → Json
  | obj : List (String × Json) → Json

/-- An optional field of a JSON object literal: `JSON.stringify` omits
keys whose value is `undefined`. -/
def optField (k : String) (v : Option String) : List (String × Json) :=
  match v with
  | none => []
  | some s => [(k, Json.str s)]

/-- The JSON document `JSON.stringify` produces for an `ErrorReport`
(the text layer — 2-space indentation and character escaping — is the
standard JSON rendering of this document). -/
def reportToJson (r : ErrorReport) : Json :=
  Json.obj
    [("timestamp", Json.str r.timestamp),
     ("error", Json.obj
        ([("name", Json.str r.error.name), ("message", Json.str r.error.message)] ++
          optField "stack" r.error.stack ++ optField "digest" r.error.digest)),
     ("userReport", Json.str r.userReport),
     ("userAgent", Json.str r.userAgent),
     ("url", Json.str r.url),
     ("screenshot", Json.str r.screenshot)]

/-- Field lookup on a parsed JSON document. -/
def getField (j : Json) (k : String) : Option Json :=
  match j with
  | Json.obj fields => (fields.find? (fun p => p.1 == k)).map (fun p => p.2)
  | _ => none

/-- Extract a string value from a looked-up JSON field. -/
def getStr (j : Option Json) : Option String :=
  match j with
  | some (Json.str s) => some s
  | _ => none

/-- Read an `ErrorReport` back out of a parsed JSON document; absent
`stack`/`digest` keys read back as `undefined`. -/
def jsonToReport (j : Json) : Option ErrorReport :=
  match getStr (getField j "timestamp"), getField j "error",
      getStr (getField j "userReport"), getStr (getField j "userAgent"),
      getStr (getField j "url"), getStr (getField j "screenshot") with
  | some ts, some ej, some ur, some ua, some u, some ss =>
    match getStr (getField ej "name"), getStr (getField ej "message") with
    | some n, some m =>
      some
        { timestamp := ts
          error :=
            { name := n
              message := m
              stack := getStr (getField ej "stack")
              digest := getStr (getField ej "digest") }
          userReport := ur
          userAgent := ua
          url := u
          screenshot := ss }
    | _, _ => none
  | _, _, _, _, _, _ => none

theorem jsonToReport_reportToJson (r : ErrorReport) :
    jsonToReport (reportToJson r) = some r := by
  rcases r with ⟨ts, ⟨n, m, stack, digest⟩, ur, ua, u, ss⟩
  cases stack <;> cases digest <;>
    simp [reportToJson, jsonToReport, optField, getField, getStr, List.find?]

/-- C4: serializing the report assembled by `downloadErrorReport` and
parsing it back reproduces every input field exactly — the round-trip
record equals the record that was serialized. -/
theorem buildReport_roundTrip (error : ErrorInfo) (userReport : String)
    (screenshot : Option String) (timestamp userAgent url : String) :
    jsonToReport (reportToJson (buildReport error userReport screenshot timestamp userAgent url)) =
      some (buildReport error userReport screenshot timestamp userAgent url) :=
  jsonToReport_reportToJson _

/-- The markdown issue body rendered by `createGithubIssue` before URL
encoding, as a character list: the template literal with its
interpolation slots. -/
def issueBody (error : ErrorInfo) (userReport : String) (screenshot : Option String)
    (url userAgent timestamp : String) : List Char :=
  "## Error Report\n\n**Error Message:** ".toList ++ error.message.toList ++
  "\n\n**Error Type:** ".toList ++ error.name.toList ++
  "\n\n**Digest:** ".toList ++ (jsOrOpt error.digest "N/A").toList ++
  "\n\n**User Report:**\n".toList ++
  (jsOrStr userReport "No additional information provided").toList ++
  "\n\n**Stack Trace:**\n```\n".toList ++ (jsTemplate error.stack).toList ++
  "\n```\n\n**Environment:**\n- URL: ".toList ++ url.toList ++
  "\n- User Agent: ".toList ++ userAgent.toList ++
  "\n- Timestamp: ".toList ++ timestamp.toList ++
  "\n\n".toList ++
  (if jsTruthy screenshot then "**Screenshot:** Attached separately".toList
   else "**Screenshot:** Not captured".toList)

/-- C3 counterexample: for an error descriptor with absent digest, the
report assembled by `downloadErrorReport` keeps the digest absent — it is
not replaced with the string `"N/A"` as the claim states. -/
theorem downloadReport_digest_claim_false :
    (buildReport
        { name := "TypeError", message := "boom", stack := some "at main", digest := none }
        "" none "2026-01-01T00:00:00.000Z" "agent" "https://portal.test").error.digest ≠
      some "N/A" := by
  decide

/-- Lookup of a field nested one object deep in a JSON document. -/
def getField2 (j : Json) (k1 k2 : String) : Option Json :=
  match getField j k1 with
  | some j2 => getField j2 k2
  | none => none

/-- C3 amended: with an absent digest, the issue body renders the digest
slot as the literal text `N/A`, while the assembled `ErrorReport` keeps
the digest absent (`undefined`) and the serialized JSON document omits
the `digest` key of the `error` object entirely. -/
theorem digest_absent_rendering (error : ErrorInfo) (userReport : String)
    (screenshot : Option String) (url userAgent timestamp : String)
    (h : error.digest = none) :
    (∃ a b : List Char,
      issueBody error userReport screenshot url userAgent timestamp =
        a ++ "\n\n**Digest:** ".toList ++ "N/A".toList ++ b) ∧
    (buildReport error userReport screenshot timestamp userAgent url).error.digest = none ∧
    getField2 (reportToJson (buildReport error userReport screenshot timestamp userAgent url))
      "error" "digest" = none := by
  refine ⟨⟨"## Error Report\n\n**Error Message:** ".toList ++ error.message.toList ++
    "\n\n**Error Type:** ".toList ++ error.name.toList,
    "\n\n**User Report:**\n".toList ++
      (jsOrStr userReport "No additional information provided").toList ++
      "\n\n**Stack Trace:**\n```\n".toList ++ (jsTemplate error.stack).toList ++
      "\n```\n\n**Environment:**\n- URL: ".toList ++ url.toList ++
      "\n- User Agent: ".toList ++ userAgent.toList ++
      "\n- Timestamp: ".toList ++ timestamp.toList ++
      "\n\n".toList ++
      (if jsTruthy screenshot then "**Screenshot:** Attached separately".toList
       else "**Screenshot:** Not captured".toList), ?_⟩, ?_, ?_⟩
  · simp only [issueBody, h, jsOrOpt, List.append_assoc]
  · simp [buildReport, h]
  · cases hs : error.stack <;>
      simp [getField2, getField, reportToJson, buildReport, optField, h, hs, List.find?]

/-- C3 amended witness: the amended statement instantiated on a concrete
digest-absent error descriptor. -/
theorem digest_absent_rendering_witness :
    ((ErrorInfo.mk "TypeError" "boom" (some "at main") none).digest = none) ∧
    ((∃ a b : List Char,
      issueBody (ErrorInfo.mk "TypeError" "boom" (some "at main") none) "" none
          "https://portal.test" "agent" "2026-01-01T00:00:00.000Z" =
        a ++ "\n\n**Digest:** ".toList ++ "N/A".toList ++ b) ∧
    (buildReport (ErrorInfo.mk "TypeError" "boom" (some "at main") none) "" none
        "2026-01-01T00:00:00.000Z" "agent" "https://portal.test").error.digest = none ∧
    getField2 (reportToJson (buildReport (ErrorInfo.mk "TypeError" "boom" (some "at main") none)
        "" none "2026-01-01T00:00:00.000Z" "agent" "https://portal.test"))
      "error" "digest" = none) :=
  ⟨rfl, digest_absent_rendering (ErrorInfo.mk "TypeError" "boom" (some "at main") none)
    "" none "https://portal.test" "agent" "2026-01-01T00:00:00.000Z" rfl⟩

/-- C9: when the user report text is the empty string, the issue body
renders the User Report section as the default text
`No additional information provided`, while the JSON report keeps
`userReport` as the empty string. -/
theorem empty_userReport_rendering (error : ErrorInfo) (userReport : String)
    (screenshot : Option String) (url userAgent timestamp : String)
    (h : userReport = "") :
    (∃ a b : List Char,
      issueBody error userReport screenshot url userAgent timestamp =
        a ++ "\n\n**User Report:**\n".toList ++
          "No additional information provided".toList ++ b) ∧
    (buildReport error userReport screenshot timestamp userAgent url).userReport = "" ∧
    getField (reportToJson (buildReport error userReport screenshot timestamp userAgent url))
        "userReport" = some (Json.str "") := by
  subst h
  refine ⟨⟨"## Error Report\n\n**Error Message:** ".toList ++ error.message.toList ++
    "\n\n**Error Type:** ".toList ++ error.name.toList ++
    "\n\n**Digest:** ".toList ++ (jsOrOpt error.digest "N/A").toList,
    "\n\n**Stack Trace:**\n```\n".toList ++ (jsTemplate error.stack).toList ++
      "\n```\n\n**Environment:**\n- URL: ".toList ++ url.toList ++
      "\n- User Agent: ".toList ++ userAgent.toList ++
      "\n- Timestamp: ".toList ++ timestamp.toList ++
      "\n\n".toList ++
      (if jsTruthy screenshot then "**Screenshot:** Attached separately".toList
       else "**Screenshot:** Not captured".toList), ?_⟩, ?_, ?_⟩
  · have hjs : jsOrStr "" "No additional information provided" =
        "No additional information provided" := rfl
    simp only [issueBody, hjs, List.append_assoc]
  · simp [buildReport]
  · simp [reportToJson, getField, buildReport, List.find?]

/-- C9 witness: the statement instantiated on a concrete descriptor. -/
theorem empty_userReport_rendering_witness :
    ("" : String) = "" ∧
    ((∃ a b : List Char,
      issueBody (ErrorInfo.mk "TypeError" "boom" (some "at main") none) "" none
          "https://portal.test" "agent" "2026-01-01T00:00:00.000Z" =
        a ++ "\n\n**User Report:**\n".toList ++
          "No additional information provided".toList ++ b) ∧
    (buildReport (ErrorInfo.mk "TypeError" "boom" (some "at main") none) "" none
        "2026-01-01T00:00:00.000Z" "agent" "https://portal.test").userReport = "" ∧
    getField (reportToJson (buildReport (ErrorInfo.mk "TypeError" "boom" (some "at main") none)
        "" none "2026-01-01T00:00:00.000Z" "agent" "https://portal.test"))
        "userReport" = some (Json.str "")) :=
  ⟨rfl, empty_userReport_rendering (ErrorInfo.mk "TypeError" "boom" (some "at main") none)
    "" none "https://portal.test" "agent" "2026-01-01T00:00:00.000Z" rfl⟩

/-- Transient view state of the error component. -/
structure ComponentState where
  showStackTrace : Bool
  copied : Bool
  screenshot : Option String
  userReport : String
deriving DecidableEq, Repr

/-- The component state together with the system clipboard contents. -/
structure World where
  component : ComponentState
  clipboard : Option String
deriving DecidableEq, Repr

/-- The copied summary text `Error: <message>\n\nStack Trace:\n<stack>`. -/
def copySummaryText (error : ErrorInfo) : String :=
  "Error: " ++ error.message ++ "\n\nStack Trace:\n" ++ jsTemplate error.stack

/-- The `copyToClipboard` handler: it awaits
`navigator.clipboard.writeText` with no surrounding `try`/`catch`.  On a
successful write it stores the text in the clipboard and sets the
`copied` flag (a deferred timer clears the flag again two seconds later;
that timer is outside the synchronous completion modelled here).  On a
failed write nothing after the `await` runs, and the rejection becomes
the rejection of the handler's own promise; the Boolean in the result
records whether that promise rejects. -/
def copyToClipboard (error : ErrorInfo) (writeSucceeds : Bool) (w : World) :
    World × Bool :=
  let text := copySummaryText error
  if writeSucceeds then
    ({ component := { w.component with copied := true }, clipboard := some text }, false)
  else
    (w, true)

/-- C7 counterexample: when the clipboard write rejects, the promise
returned by `copyToClipboard` itself rejects — there is no `try`/`catch`
around the `await`, so the failure is not contained inside the handler as
the claim states. -/
theorem copyToClipboard_contained_claim_false :
    ¬ (copyToClipboard (ErrorInfo.mk "TypeError" "boom" (some "at main") none) false
        (World.mk (ComponentState.mk false false none "") none)).2 = false := by
  decide

/-- C7 amended: a failed clipboard write modifies no state — in
particular the `copied` indicator is not set to true and the clipboard is
untouched — but the failure is not caught inside `copyToClipboard`: it
propagates onward as the rejection of the handler's own promise. -/
theorem copyToClipboard_failure (error : ErrorInfo) (w : World) :
    copyToClipboard error false w = (w, true) :=
  rfl

/-- Browser-side resource state: the live object URLs, a counter
providing fresh URL identities, and the files handed to the user so
far. -/
structure BrowserState where
  allocatedUrls : List Nat
  nextUrl : Nat
  downloads : List (String × Json)

/-- `URL.createObjectURL`: allocates a fresh object URL for the blob. -/
def createObjectURL (st : BrowserState) : Nat × BrowserState :=
  (st.nextUrl,
    { st with allocatedUrls := st.nextUrl :: st.allocatedUrls, nextUrl := st.nextUrl + 1 })

/-- `URL.revokeObjectURL`: releases an object URL. -/
def revokeObjectURL (u : Nat) (st : BrowserState) : BrowserState :=
  { st with allocatedUrls := st.allocatedUrls.erase u }

/-- `a.click()` on the generated anchor: hands the named file with the
serialized report to the user. -/
def anchorClick (fileName : String) (contents : Json) (st : BrowserState) : BrowserState :=
  { st with downloads := (fileName, contents) :: st.downloads }

/-- The download file name `error-report-<epoch-millis>.json`. -/
def errorReportFileName (now : Nat) : String :=
  "error-report-" ++ toString now ++ ".json"

/-- The `downloadErrorReport` handler: assembles the report, allocates an
object URL exposing the serialized blob, triggers the download via the
anchor click, and revokes the URL. -/
def downloadErrorReport (error : ErrorInfo) (userReport : String)
    (screenshot : Option String) (timestamp userAgent url : String) (now : Nat)
    (st : BrowserState) : BrowserState :=
  let report := buildReport error userReport screenshot timestamp userAgent url
  let p := createObjectURL st
  let st2 := anchorClick (errorReportFileName now) (reportToJson report) p.2
  revokeObjectURL p.1 st2

/-- C8: every invocation of `downloadErrorReport` revokes the object URL
it created before returning, on all paths (the body is straight-line):
the allocated-URL set after the call equals the one before, so repeated
invocations never accumulate unreleased handles. -/
theorem downloadErrorReport_releases_url (error : ErrorInfo) (userReport : String)
    (screenshot : Option String) (timestamp userAgent url : String) (now : Nat)
    (st : BrowserState) :
    (downloadErrorReport error userReport screenshot timestamp userAgent url now
        st).allocatedUrls = st.allocatedUrls := by
  simp [downloadErrorReport, createObjectURL, anchorClick, revokeObjectURL]

/-- C10 witness: the frame property instantiated on `"hello world"` with
selection from 6 to 11 and style `"italic"`. -/
theorem insertFormatting_frame_witness :
    (6 ≤ 11 ∧ 11 ≤ ("hello world".toList).length) ∧
    ∃ inserted : List Char,
      (insertFormatting "hello world".toList 6 11 "italic").1 =
        ("hello world".toList).take 6 ++ inserted ++ ("hello world".toList).drop 11 :=
  ⟨by decide, insertFormatting_frame "hello world".toList 6 11 "italic"
    (by decide) (by decide)⟩

/-- Uppercase hexadecimal digit character, as produced by
`encodeURIComponent`: code 48 is `0` and code 55 + 10 is `A`. -/
def hexDigit (n : Nat) : Char :=
  Char.ofNat (if n < 10 then 48 + n else 55 + n)

/-- Numeric value of a hexadecimal digit character, by codepoint range:
48–57 are the digits, 65–70 are `A`–`F`, 97–102 are `a`–`f`. -/
def hexVal (c : Char) : Option Nat :=
  let n := c.toNat
  if 48 ≤ n ∧ n ≤ 57 then some (n - 48)
  else if 65 ≤ n ∧ n ≤ 70 then some (n - 55)
  else if 97 ≤ n ∧ n ≤ 102 then some (n - 87)
  else none

/-- UTF-8 encoding of one Unicode scalar value. -/
def utf8Bytes (c : Char) : List Nat :=
  let n := c.toNat
  if n < 0x80 then [n]
  else if n < 0x800 then [0xC0 + n / 0x40, 0x80 + n % 0x40]
  else if n < 0x10000 then
    [0xE0 + n / 0x1000, 0x80 + n / 0x40 % 0x40, 0x80 + n % 0x40]
  else
    [0xF0 + n / 0x40000, 0x80 + n / 0x1000 % 0x40, 0x80 + n / 0x40 % 0x40,
      0x80 + n % 0x40]

/-- The characters `encodeURIComponent` leaves unescaped: letters
(codepoints 65–90 and 97–122), digits (48–57), and the marks
`- _ . ! ~ * ' ( )` (codepoints 45, 95, 46, 33, 126, 42, 39, 40, 41). -/
def isUnreservedChar (c : Char) : Bool :=
  let n := c.toNat
  (65 ≤ n && n ≤ 90) || (97 ≤ n && n ≤ 122) || (48 ≤ n && n ≤ 57) ||
  n == 45 || n == 95 || n == 46 || n == 33 || n == 126 || n == 42 ||
  n == 39 || n == 40 || n == 41

/-- Percent-escape of one byte. -/
def pctEncodeByte (b : Nat) : List Char :=
  ['%', hexDigit (b / 16), hexDigit (b % 16)]

/-- `encodeURIComponent` on one character. -/
def encodeChar (c : Char) : List Char :=
  if isUnreservedChar c then [c] else (utf8Bytes c).flatMap pctEncodeByte

/-- `encodeURIComponent` on a character list: unreserved characters pass
through, every other character is replaced by the percent-escapes of its
UTF-8 bytes. -/
def encodeURIComponent (l : List Char) : List Char :=
  l.flatMap encodeChar

/-- First pass of `decodeURIComponent`: each percent-escape becomes a
byte (`Sum.inr`), every other character passes through (`Sum.inl`).
A `%` not followed by two hexadecimal digits — on which the real
`decodeURIComponent` throws `URIError`, and which `encodeURIComponent`
never produces — passes through. -/
def pctDecode : List Char → List (Char ⊕ Nat)
  | [] => []
  | c :: h1 :: h2 :: rest =>
    if c = '%' then
      match hexVal h1, hexVal h2 with
      | some a, some b => Sum.inr (16 * a + b) :: pctDecode rest
      | _, _ => Sum.inl c :: pctDecode (h1 :: h2 :: rest)
    else Sum.inl c :: pctDecode (h1 :: h2 :: rest)
  | c :: rest => Sum.inl c :: pctDecode rest

/-- Whether a byte is a UTF-8 continuation byte. -/
def isContByte (b : Nat) : Bool := 0x80 ≤ b && b < 0xC0

/-- Second pass of `decodeURIComponent`, as a byte state machine: a
pending multi-byte sequence carries the number of continuation bytes
still expected and the scalar value accumulated so far.  Malformed
sequences — which `encodeURIComponent` never produces, and on which the
real `decodeURIComponent` throws `URIError` — are dropped. -/
def utf8DecodeAux : Option (Nat × Nat) → List (Char ⊕ Nat) → List Char
  | _, [] => []
  | none, Sum.inl c :: rest => c :: utf8DecodeAux none rest
  | none, Sum.inr b :: rest =>
    if b < 0x80 then Char.ofNat b :: utf8DecodeAux none rest
    else if b < 0xC2 then utf8DecodeAux none rest
    else if b < 0xE0 then utf8DecodeAux (some (1, b - 0xC0)) rest
    else if b < 0xF0 then utf8DecodeAux (some (2, b - 0xE0)) rest
    else if b < 0xF5 then utf8DecodeAux (some (3, b - 0xF0)) rest
    else utf8DecodeAux none rest
  | some _, Sum.inl c :: rest => c :: utf8DecodeAux none rest
  | some (k, acc), Sum.inr b :: rest =>
    if isContByte b then
      match k with
      | 1 => Char.ofNat (acc * 0x40 + (b - 0x80)) :: utf8DecodeAux none rest
      | k2 + 2 => utf8DecodeAux (some (k2 + 1, acc * 0x40 + (b - 0x80))) rest
      | 0 => utf8DecodeAux none rest
    else utf8DecodeAux none rest

/-- Second pass of `decodeURIComponent`, started with no pending
sequence. -/
def utf8Decode (l : List (Char ⊕ Nat)) : List Char :=
  utf8DecodeAux none l

/-- `decodeURIComponent` on a character list. -/
def decodeURIComponent (l : List Char) : List Char :=
  utf8Decode (pctDecode l)

theorem hexVal_hexDigit : ∀ n, n < 16 → hexVal (hexDigit n) = some n := by
  decide

theorem pctDecode_pctEncodeByte (b : Nat) (hb : b < 256) (l : List Char) :
    pctDecode (pctEncodeByte b ++ l) = Sum.inr b :: pctDecode l := by
  have h1 := hexVal_hexDigit (b / 16) (by omega)
  have h2 := hexVal_hexDigit (b % 16) (by omega)
  simp [pctEncodeByte, pctDecode, h1, h2]
  omega

theorem pctDecode_flatMap_bytes (bs : List Nat) (hb : ∀ b ∈ bs, b < 256)
    (l : List Char) :
    pctDecode (bs.flatMap pctEncodeByte ++ l) = bs.map Sum.inr ++ pctDecode l := by
  induction bs with
  | nil => simp
  | cons b bs ih =>
    rw [List.flatMap_cons, List.append_assoc,
      pctDecode_pctEncodeByte b (hb b (List.mem_cons_self b bs)) _,
      List.map_cons, List.cons_append, ih (fun x hx => hb x (List.mem_cons_of_mem b hx))]

theorem pctDecode_cons_ne (c : Char) (l : List Char) (hc : c ≠ '%') :
    pctDecode (c :: l) = Sum.inl c :: pctDecode l := by
  match l with
  | [] => simp [pctDecode]
  | [h1] => simp [pctDecode]
  | h1 :: h2 :: rest => simp [pctDecode, hc]

theorem isUnreservedChar_ne_pct (c : Char) (h : isUnreservedChar c = true) :
    c ≠ '%' := by
  rintro rfl
  exact absurd h (by decide)

theorem char_valid_cases (c : Char) :
    c.toNat < 0xD800 ∨ (0xE000 ≤ c.toNat ∧ c.toNat < 0x110000) := c.valid

theorem utf8Bytes_lt (c : Char) : ∀ b ∈ utf8Bytes c, b < 256 := by
  have hn : c.toNat < 0x110000 := by
    rcases char_valid_cases c with h | ⟨h1, h2⟩ <;> omega
  by_cases h1 : c.toNat < 0x80
  · simp [utf8Bytes, h1]
    omega
  · by_cases h2 : c.toNat < 0x800
    · simp [utf8Bytes, h1, h2]
      omega
    · by_cases h3 : c.toNat < 0x10000
      · simp [utf8Bytes, h1, h2, h3]
        omega
      · simp [utf8Bytes, h1, h2, h3]
        omega

theorem utf8Decode_one (n : Nat) (h : n < 0x80) (rest : List (Char ⊕ Nat)) :
    utf8Decode (Sum.inr n :: rest) = Char.ofNat n :: utf8Decode rest := by
  simp [utf8Decode, utf8DecodeAux, h]

theorem utf8Decode_two (n : Nat) (hlo : 0x80 ≤ n) (hhi : n < 0x800)
    (rest : List (Char ⊕ Nat)) :
    utf8Decode (Sum.inr (0xC0 + n / 0x40) :: Sum.inr (0x80 + n % 0x40) :: rest) =
      Char.ofNat n :: utf8Decode rest := by
  have hA : ¬ (0xC0 + n / 0x40 < 0x80) := by omega
  have hB : ¬ (0xC0 + n / 0x40 < 0xC2) := by omega
  have hC : 0xC0 + n / 0x40 < 0xE0 := by omega
  have hcont : isContByte (0x80 + n % 0x40) = true := by
    simp only [isContByte, Bool.and_eq_true, decide_eq_true_eq]
    omega
  have harg : Char.ofNat ((0xC0 + n / 0x40 - 0xC0) * 0x40 + (0x80 + n % 0x40 - 0x80)) =
      Char.ofNat n :=
    congrArg Char.ofNat (by omega)
  simp only [utf8Decode, utf8DecodeAux, if_neg hA, if_neg hB, if_pos hC, hcont,
    if_true, harg]

theorem utf8Decode_three (n : Nat) (hlo : 0x800 ≤ n) (hhi : n < 0x10000)
    (rest : List (Char ⊕ Nat)) :
    utf8Decode (Sum.inr (0xE0 + n / 0x1000) :: Sum.inr (0x80 + n / 0x40 % 0x40) ::
        Sum.inr (0x80 + n % 0x40) :: rest) =
      Char.ofNat n :: utf8Decode rest := by
  have hA : ¬ (0xE0 + n / 0x1000 < 0x80) := by omega
  have hB : ¬ (0xE0 + n / 0x1000 < 0xC2) := by omega
  have hC : ¬ (0xE0 + n / 0x1000 < 0xE0) := by omega
  have hD : 0xE0 + n / 0x1000 < 0xF0 := by omega
  have hcont1 : isContByte (0x80 + n / 0x40 % 0x40) = true := by
    simp only [isContByte, Bool.and_eq_true, decide_eq_true_eq]
    omega
  have hcont2 : isContByte (0x80 + n % 0x40) = true := by
    simp only [isContByte, Bool.and_eq_true, decide_eq_true_eq]
    omega
  have harg : Char.ofNat (((0xE0 + n / 0x1000 - 0xE0) * 0x40 +
      (0x80 + n / 0x40 % 0x40 - 0x80)) * 0x40 + (0x80 + n % 0x40 - 0x80)) =
      Char.ofNat n :=
    congrArg Char.ofNat (by omega)
  simp only [utf8Decode, utf8DecodeAux, if_neg hA, if_neg hB, if_neg hC, if_pos hD,
    hcont1, hcont2, if_true, harg]

theorem utf8Decode_four (n : Nat) (hlo : 0x10000 ≤ n) (hhi : n < 0x110000)
    (rest : List (Char ⊕ Nat)) :
    utf8Decode (Sum.inr (0xF0 + n / 0x40000) :: Sum.inr (0x80 + n / 0x1000 % 0x40) ::
        Sum.inr (0x80 + n / 0x40 % 0x40) :: Sum.inr (0x80 + n % 0x40) :: rest) =
      Char.ofNat n :: utf8Decode rest := by
  have hA : ¬ (0xF0 + n / 0x40000 < 0x80) := by omega
  have hB : ¬ (0xF0 + n / 0x40000 < 0xC2) := by omega
  have hC : ¬ (0xF0 + n / 0x40000 < 0xE0) := by omega
  have hD : ¬ (0xF0 + n / 0x40000 < 0xF0) := by omega
  have hE : 0xF0 + n / 0x40000 < 0xF5 := by omega
  have hcont1 : isContByte (0x80 + n / 0x1000 % 0x40) = true := by
    simp only [isContByte, Bool.and_eq_true, decide_eq_true_eq]
    omega
  have hcont2 : isContByte (0x80 + n / 0x40 % 0x40) = true := by
    simp only [isContByte, Bool.and_eq_true, decide_eq_true_eq]
    omega
  have hcont3 : isContByte (0x80 + n % 0x40) = true := by
    simp only [isContByte, Bool.and_eq_true, decide_eq_true_eq]
    omega
  have harg : Char.ofNat ((((0xF0 + n / 0x40000 - 0xF0) * 0x40 +
      (0x80 + n / 0x1000 % 0x40 - 0x80)) * 0x40 +
      (0x80 + n / 0x40 % 0x40 - 0x80)) * 0x40 + (0x80 + n % 0x40 - 0x80)) =
      Char.ofNat n :=
    congrArg Char.ofNat (by omega)
  simp only [utf8Decode, utf8DecodeAux, if_neg hA, if_neg hB, if_neg hC, if_neg hD,
    if_pos hE, hcont1, hcont2, hcont3, if_true, harg]

theorem utf8Decode_utf8Bytes (c : Char) (rest : List (Char ⊕ Nat)) :
    utf8Decode ((utf8Bytes c).map Sum.inr ++ rest) = c :: utf8Decode rest := by
  have hn : c.toNat < 0x110000 := by
    rcases char_valid_cases c with h | ⟨h1, h2⟩ <;> omega
  by_cases h1 : c.toNat < 0x80
  · rw [show utf8Bytes c = [c.toNat] from by simp [utf8Bytes, h1]]
    simp only [List.map_cons, List.map_nil, List.cons_append, List.nil_append]
    rw [utf8Decode_one c.toNat h1 rest, Char.ofNat_toNat]
  · by_cases h2 : c.toNat < 0x800
    · rw [show utf8Bytes c = [0xC0 + c.toNat / 0x40, 0x80 + c.toNat % 0x40] from by
        simp [utf8Bytes, h1, h2]]
      simp only [List.map_cons, List.map_nil, List.cons_append, List.nil_append]
      rw [utf8Decode_two c.toNat (by omega) h2 rest, Char.ofNat_toNat]
    · by_cases h3 : c.toNat < 0x10000
      · rw [show utf8Bytes c = [0xE0 + c.toNat / 0x1000, 0x80 + c.toNat / 0x40 % 0x40,
            0x80 + c.toNat % 0x40] from by simp [utf8Bytes, h1, h2, h3]]
        simp only [List.map_cons, List.map_nil, List.cons_append, List.nil_append]
        rw [utf8Decode_three c.toNat (by omega) h3 rest, Char.ofNat_toNat]
      · rw [show utf8Bytes c = [0xF0 + c.toNat / 0x40000, 0x80 + c.toNat / 0x1000 % 0x40,
            0x80 + c.toNat / 0x40 % 0x40, 0x80 + c.toNat % 0x40] from by
          simp [utf8Bytes, h1, h2, h3]]
        simp only [List.map_cons, List.map_nil, List.cons_append, List.nil_append]
        rw [utf8Decode_four c.toNat (by omega) hn rest, Char.ofNat_toNat]

theorem pctDecode_encodeChar (c : Char) (l : List Char) :
    pctDecode (encodeChar c ++ l) =
      (if isUnreservedChar c then [Sum.inl c] else (utf8Bytes c).map Sum.inr) ++
        pctDecode l := by
  by_cases h : isUnreservedChar c
  · simp only [encodeChar, if_pos h, List.singleton_append]
    rw [pctDecode_cons_ne c l (isUnreservedChar_ne_pct c h)]
  · simp only [encodeChar, if_neg h]
    rw [pctDecode_flatMap_bytes (utf8Bytes c) (utf8Bytes_lt c) l]

theorem decode_encode_append (l l2 : List Char) :
    utf8Decode (pctDecode (encodeURIComponent l ++ l2)) =
      l ++ utf8Decode (pctDecode l2) := by
  induction l with
  | nil => simp [encodeURIComponent]
  | cons c l ih =>
    rw [show encodeURIComponent (c :: l) = encodeChar c ++ encodeURIComponent l from by
      simp [encodeURIComponent]]
    rw [List.append_assoc, pctDecode_encodeChar]
    by_cases h : isUnreservedChar c
    · rw [if_pos h, List.singleton_append,
        show utf8Decode (Sum.inl c :: pctDecode (encodeURIComponent l ++ l2)) =
          c :: utf8Decode (pctDecode (encodeURIComponent l ++ l2)) from rfl, ih]
      rfl
    · rw [if_neg h, utf8Decode_utf8Bytes, ih]
      rfl

/-- Decoding after `encodeURIComponent` is the identity on the encoded
text. -/
theorem decodeURIComponent_encodeURIComponent (l : List Char) :
    decodeURIComponent (encodeURIComponent l) = l := by
  have h := decode_encode_append l []
  have h2 : utf8Decode (pctDecode ([] : List Char)) = [] := rfl
  rw [List.append_nil, h2, List.append_nil] at h
  exact h

/-- The `title` query parameter of `createGithubIssue`:
`encodeURIComponent` applied to the template `Error: <message>`. -/
def createGithubIssueTitle (error : ErrorInfo) : List Char :=
  encodeURIComponent ("Error: ".toList ++ error.message.toList)

/-- The `body` query parameter of `createGithubIssue`. -/
def createGithubIssueBody (error : ErrorInfo) (userReport : String)
    (screenshot : Option String) (url userAgent timestamp : String) : List Char :=
  encodeURIComponent (issueBody error userReport screenshot url userAgent timestamp)

/-- The GitHub new-issue URL opened by `createGithubIssue`. -/
def createGithubIssueUrl (error : ErrorInfo) (userReport : String)
    (screenshot : Option String) (url userAgent timestamp : String) : List Char :=
  "https://github.com/vsthakur101/portal/issues/new?title=".toList ++
    createGithubIssueTitle error ++ "&body=".toList ++
    createGithubIssueBody error userReport screenshot url userAgent timestamp

/-- C5: URL-decoding the `body` query parameter of the issue URL yields
the rendered template, which contains the error message
character-for-character and the stack trace text character-for-character
(decoding after `encodeURIComponent` is the identity on the rendered
template). -/
theorem issueBody_decoded_contains (error : ErrorInfo) (userReport : String)
    (screenshot : Option String) (url userAgent timestamp : String) (st : String)
    (h : error.stack = some st) :
    decodeURIComponent
        (createGithubIssueBody error userReport screenshot url userAgent timestamp) =
      issueBody error userReport screenshot url userAgent timestamp ∧
    (∃ a b : List Char,
      decodeURIComponent
          (createGithubIssueBody error userReport screenshot url userAgent timestamp) =
        a ++ error.message.toList ++ b) ∧
    (∃ a b : List Char,
      decodeURIComponent
          (createGithubIssueBody error userReport screenshot url userAgent timestamp) =
        a ++ st.toList ++ b) := by
  have hd :
      decodeURIComponent
          (createGithubIssueBody error userReport screenshot url userAgent timestamp) =
        issueBody error userReport screenshot url userAgent timestamp :=
    decodeURIComponent_encodeURIComponent _
  refine ⟨hd, ⟨"## Error Report\n\n**Error Message:** ".toList,
    "\n\n**Error Type:** ".toList ++ error.name.toList ++
      "\n\n**Digest:** ".toList ++ (jsOrOpt error.digest "N/A").toList ++
      "\n\n**User Report:**\n".toList ++
      (jsOrStr userReport "No additional information provided").toList ++
      "\n\n**Stack Trace:**\n```\n".toList ++ (jsTemplate error.stack).toList ++
      "\n```\n\n**Environment:**\n- URL: ".toList ++ url.toList ++
      "\n- User Agent: ".toList ++ userAgent.toList ++
      "\n- Timestamp: ".toList ++ timestamp.toList ++
      "\n\n".toList ++
      (if jsTruthy screenshot then "**Screenshot:** Attached separately".toList
       else "**Screenshot:** Not captured".toList), ?_⟩,
    ⟨"## Error Report\n\n**Error Message:** ".toList ++ error.message.toList ++
      "\n\n**Error Type:** ".toList ++ error.name.toList ++
      "\n\n**Digest:** ".toList ++ (jsOrOpt error.digest "N/A").toList ++
      "\n\n**User Report:**\n".toList ++
      (jsOrStr userReport "No additional information provided").toList ++
      "\n\n**Stack Trace:**\n```\n".toList,
    "\n```\n\n**Environment:**\n- URL: ".toList ++ url.toList ++
      "\n- User Agent: ".toList ++ userAgent.toList ++
      "\n- Timestamp: ".toList ++ timestamp.toList ++
      "\n\n".toList ++
      (if jsTruthy screenshot then "**Screenshot:** Attached separately".toList
       else "**Screenshot:** Not captured".toList), ?_⟩⟩
  · rw [hd]
    simp only [issueBody, List.append_assoc]
  · rw [hd]
    have hst : jsTemplate error.stack = st := by rw [h]; rfl
    simp only [issueBody, hst, List.append_assoc]

/-- C5 witness: the statement instantiated on a concrete error
descriptor with stack trace text `at main`. -/
theorem issueBody_decoded_contains_witness :
    (ErrorInfo.mk "TypeError" "boom" (some "at main") none).stack = some "at main" ∧
    (decodeURIComponent
        (createGithubIssueBody (ErrorInfo.mk "TypeError" "boom" (some "at main") none)
          "notes" none "https://portal.test" "agent" "2026-01-01T00:00:00.000Z") =
      issueBody (ErrorInfo.mk "TypeError" "boom" (some "at main") none) "notes" none
        "https://portal.test" "agent" "2026-01-01T00:00:00.000Z" ∧
    (∃ a b : List Char,
      decodeURIComponent
          (createGithubIssueBody (ErrorInfo.mk "TypeError" "boom" (some "at main") none)
            "notes" none "https://portal.test" "agent" "2026-01-01T00:00:00.000Z") =
        a ++ ("boom".toList : List Char) ++ b) ∧
    (∃ a b : List Char,
      decodeURIComponent
          (createGithubIssueBody (ErrorInfo.mk "TypeError" "boom" (some "at main") none)
            "notes" none "https://portal.test" "agent" "2026-01-01T00:00:00.000Z") =
        a ++ ("at main".toList : List Char) ++ b)) :=
  ⟨rfl, issueBody_decoded_contains (ErrorInfo.mk "TypeError" "boom" (some "at main") none)
    "notes" none "https://portal.test" "agent" "2026-01-01T00:00:00.000Z" "at main" rfl⟩

/-- C6 counterexample: on an error with message `boom`, the URL-decoded
`title` query parameter is `Error: boom`, which differs from the error
message itself. -/
theorem issueTitle_claim_false :
    decodeURIComponent
        (createGithubIssueTitle (ErrorInfo.mk "TypeError" "boom" (some "at main") none)) ≠
      (ErrorInfo.mk "TypeError" "boom" (some "at main") none).message.toList := by
  decide

/-- C6 amended: the URL-decoded `title` query parameter of the issue URL
equals `Error: ` followed by the error message (the source prepends the
`Error: ` tag before encoding). -/
theorem issueTitle_decoded (error : ErrorInfo) :
    decodeURIComponent (createGithubIssueTitle error) =
      "Error: ".toList ++ error.message.toList :=
  decodeURIComponent_encodeURIComponent _

end Portal
